import Mathlib

/-!
Shallow embedding of the `auth0_rs` crate (files `src/lib.rs`, `src/error.rs`).

The crate validates JWTs against a JSON Web Key Set.  Its own code is the
key-store construction (`Auth0::new`, `Auth0::update_keys`,
`Auth0::jwks_to_keymap`) and the validation pipeline (`Auth0::validate_token`).
JSON text parsing (`serde_json`) and the JWT codec (`jsonwebtoken`'s
`decode_header` / `decode`) are external crates that the spec declares out of
scope, specified only through their interfaces; the embedding therefore takes
them as parameters (`parseJson : String → Option Json`, `JwtCodec`), while the
shape-level deserialization generated by `#[derive(Deserialize)]` on the
crate's own structs (`JsonWebKey`, `Jwks`) is embedded concretely
(`jwkFromJson`, `jwksFromJson`).
-/

namespace Auth0Rs

/-- JSON values, the model of `serde_json::Value` (the crate's `Claims` type
and the intermediate representation of a parsed JWKS document).  Numbers are
modelled as integers; no claim in this development inspects a numeric
payload. -/
inductive Json where
  | null : Json
  | bool (b : Bool) : Json
  | num (n : Int) : Json
  | str (s : String) : Json
  | arr (elems : List Json) : Json
  | obj (fields : List (String × Json)) : Json

/-- Model of `pub type Claims = Value;` in `src/lib.rs`. -/
abbrev Claims := Json

/-- Model of `jsonwebtoken::Algorithm` (the variants relevant here). -/
inductive Algorithm where
  | RS256 | RS384 | RS512 | HS256 | ES256
deriving DecidableEq

/-- Model of the part of `jsonwebtoken::Header` that `validate_token` can see:
the header's algorithm field and optional `kid`.  The code only ever reads
`kid`. -/
structure Header where
  alg : Algorithm
  kid : Option String
deriving DecidableEq

/-- Model of `struct JsonWebKey` in `src/lib.rs`: `alg`, `kty`, `key_use`
(wire name `use` via a serde alias), optional `x5c`, `n`, `e`, `kid`,
optional `x5t`. -/
structure JsonWebKey where
  alg : String
  kty : String
  key_use : String
  x5c : Option (List String)
  n : String
  e : String
  kid : String
  x5t : Option String
deriving DecidableEq

/-- Model of `struct Jwks { keys: Vec<JsonWebKey> }` in `src/lib.rs`. -/
structure Jwks where
  keys : List JsonWebKey
deriving DecidableEq

/-- Model of `enum ErrorKind` in `src/error.rs`.  The spec refers to
`InvalidJwksStr` by the language-neutral name `InvalidJwksDocument`. -/
inductive ErrorKind where
  | InvalidToken
  | TokenMissingKeyId
  | NoMatchKey
  | InvalidJwksStr
deriving DecidableEq

/-- Model of `struct Auth0Error(Box<ErrorKind>)` in `src/error.rs`. -/
structure Auth0Error where
  kind : ErrorKind
deriving DecidableEq

/-- Model of `fn new_error(kind: ErrorKind) -> Auth0Error`. -/
def new_error (kind : ErrorKind) : Auth0Error := ⟨kind⟩

/-! ### serde deserialization of the crate's structs

The following functions embed the deserializers generated by
`#[derive(Deserialize)]` on `JsonWebKey` and `Jwks`: each required field must
be present with the required type, optional (`Option`) fields may be absent or
`null`, unknown fields are ignored. -/

/-- Look a field up in a JSON object's field list (first occurrence). -/
def findField (fields : List (String × Json)) (name : String) : Option Json :=
  match fields with
  | [] => none
  | (k, v) :: rest => if k = name then some v else findField rest name

/-- Extract a JSON string. -/
def Json.asString : Json → Option String
  | .str s => some s
  | _ => none

/-- Extract a JSON array of strings (for the `x5c` field). -/
def Json.asStringList : Json → Option (List String)
  | .arr elems => elems.mapM Json.asString
  | _ => none

/-- Read a required string-typed field: absent or non-string fails. -/
def reqStr (fields : List (String × Json)) (name : String) : Option String :=
  (findField fields name).bind Json.asString

/-- Read an optional field: absent or `null` is `none`; present with the
wrong type fails the whole deserialization, as serde does for `Option<T>`
fields. -/
def optField (fields : List (String × Json)) (name : String)
    (read : Json → Option α) : Option (Option α) :=
  match findField fields name with
  | none => some none
  | some .null => some none
  | some v => (read v).map some

/-- Deserializer of one `JsonWebKey`, as derived by serde: `alg`, `kty`,
`use` (alias of the Rust field `key_use`), `n`, `e`, `kid` are required
strings; `x5c` and `x5t` are optional. -/
def jwkFromJson : Json → Option JsonWebKey
  | .obj fields => do
    let alg ← reqStr fields "alg"
    let kty ← reqStr fields "kty"
    let key_use ←
      match findField fields "use" with
      | some v => v.asString
      | none => reqStr fields "key_use"
    let x5c ← optField fields "x5c" Json.asStringList
    let n ← reqStr fields "n"
    let e ← reqStr fields "e"
    let kid ← reqStr fields "kid"
    let x5t ← optField fields "x5t" Json.asString
    pure { alg := alg, kty := kty, key_use := key_use, x5c := x5c,
           n := n, e := e, kid := kid, x5t := x5t }
  | _ => none

/-- Deserializer of a `Jwks` document: a JSON object with a `keys` array,
every element of which deserializes to a `JsonWebKey`. -/
def jwksFromJson : Json → Option Jwks
  | .obj fields =>
    match findField fields "keys" with
    | some (.arr elems) => (elems.mapM jwkFromJson).map Jwks.mk
    | _ => none
  | _ => none

/-- Model of `serde_json::from_str::<Jwks>`: parse the text to a JSON value
with the external parser, then deserialize the crate's `Jwks` shape. -/
def jwksFromStr (parseJson : String → Option Json) (s : String) : Option Jwks :=
  (parseJson s).bind jwksFromJson

/-! ### The key store -/

/-- Model of `HashMap<String, JsonWebKey>` by its lookup function. -/
def KeyMap : Type := String → Option JsonWebKey

/-- Model of `HashMap::new()`. -/
def KeyMap.empty : KeyMap := fun _ => none

/-- Model of `HashMap::insert` (replaces any previous value at the key). -/
def KeyMap.insert (m : KeyMap) (k : String) (v : JsonWebKey) : KeyMap :=
  fun x => if x = k then some v else m x

/-- Model of `struct Auth0 { key_map: HashMap<String, JsonWebKey> }`. -/
structure Auth0 where
  key_map : KeyMap

/-- Model of `Auth0::jwks_to_keymap`: insert every key of the document into
an initially empty map, keyed by its `kid`, in document order. -/
def Auth0.jwks_to_keymap (keys : Jwks) : KeyMap :=
  keys.keys.foldl (fun key_map key => key_map.insert key.kid key) KeyMap.empty

/-- Model of `Auth0::new`: deserialize the JWKS text; on failure return
`InvalidJwksStr`, on success build the key map. -/
def Auth0.new (parseJson : String → Option Json) (jwks_str : String) :
    Except Auth0Error Auth0 :=
  match jwksFromStr parseJson jwks_str with
  | none => .error (new_error .InvalidJwksStr)
  | some keys => .ok { key_map := Auth0.jwks_to_keymap keys }

/-- Model of `Auth0::update_keys` (`&mut self`): the returned pair is the
`Result<(), Auth0Error>` together with the state of `self` after the call. -/
def Auth0.update_keys (parseJson : String → Option Json) (self : Auth0)
    (jwks_str : String) : Except Auth0Error Unit × Auth0 :=
  match jwksFromStr parseJson jwks_str with
  | none => (.error (new_error .InvalidJwksStr), self)
  | some keys => (.ok (), { key_map := Auth0.jwks_to_keymap keys })

/-! ### The token validation pipeline -/

/-- Interface of the external `jsonwebtoken` crate as `validate_token` uses
it: `decode_header` reads the unverified token header; `decode token n e alg`
models `decode::<Value>(&token, &DecodingKey::from_rsa_components(n, e),
&Validation::new(alg))` — full signature verification plus payload decode,
returning the claims.  The error payloads are discarded by the crate
(`Err(_)`), so they are modelled as `Unit`. -/
structure JwtCodec where
  decode_header : String → Except Unit Header
  decode : String → String → String → Algorithm → Except Unit Claims

/-- Model of `Auth0::validate_token`: decode the header (failure ⇒
`InvalidToken`), extract `kid` (absent ⇒ `TokenMissingKeyId`), look the key up
(absent ⇒ `NoMatchKey`), then verify with the key's `n`, `e` and the pinned
algorithm `RS256` (failure ⇒ `InvalidToken`). -/
def Auth0.validate_token (codec : JwtCodec) (self : Auth0) (token : String) :
    Except Auth0Error Claims :=
  match codec.decode_header token with
  | .error _ => .error (new_error .InvalidToken)
  | .ok header =>
    match header.kid with
    | none => .error (new_error .TokenMissingKeyId)
    | some key_id =>
      match self.key_map key_id with
      | none => .error (new_error .NoMatchKey)
      | some key =>
        match codec.decode token key.n key.e Algorithm.RS256 with
        | .ok decoded => .ok decoded
        | .error _ => .error (new_error .InvalidToken)

/-! ### Concrete sample data

Concrete keys, documents, a one-purpose external JSON parser and concrete
codecs, used to evaluate the theorems on closed inputs. -/

/-- Sample RSA key with kid `auth0_rs`. -/
def sampleKey : JsonWebKey :=
  { alg := "RS256", kty := "RSA", key_use := "sig", x5c := none,
    n := "modulusA", e := "AQAB", kid := "auth0_rs", x5t := none }

/-- Second key with the same kid `auth0_rs` but a different modulus. -/
def dupKey : JsonWebKey :=
  { alg := "RS256", kty := "RSA", key_use := "sig", x5c := none,
    n := "modulusB", e := "AQAB", kid := "auth0_rs", x5t := none }

/-- Key whose `kty`, `alg` and `use` are not RSA/RS256/sig. -/
def ecKey : JsonWebKey :=
  { alg := "HS256", kty := "EC", key_use := "enc", x5c := none,
    n := "modulusC", e := "AQAB", kid := "ec_key", x5t := none }

/-- JSON form of `sampleKey` (wire field name `use`). -/
def sampleKeyJson : Json :=
  .obj [("alg", .str "RS256"), ("kty", .str "RSA"), ("use", .str "sig"),
        ("n", .str "modulusA"), ("e", .str "AQAB"), ("kid", .str "auth0_rs")]

/-- JSON form of `dupKey`. -/
def dupKeyJson : Json :=
  .obj [("alg", .str "RS256"), ("kty", .str "RSA"), ("use", .str "sig"),
        ("n", .str "modulusB"), ("e", .str "AQAB"), ("kid", .str "auth0_rs")]

/-- JSON form of `ecKey`. -/
def ecKeyJson : Json :=
  .obj [("alg", .str "HS256"), ("kty", .str "EC"), ("use", .str "enc"),
        ("n", .str "modulusC"), ("e", .str "AQAB"), ("kid", .str "ec_key")]

/-- JWKS document with the single key `sampleKey`. -/
def sampleDoc : Json := .obj [("keys", .arr [sampleKeyJson])]

/-- JWKS document with two keys sharing the kid `auth0_rs`. -/
def dupDoc : Json := .obj [("keys", .arr [sampleKeyJson, dupKeyJson])]

/-- JWKS document with the single non-RSA key `ecKey`. -/
def ecDoc : Json := .obj [("keys", .arr [ecKeyJson])]

/-- JWKS document with an empty `keys` array. -/
def emptyDoc : Json := .obj [("keys", .arr [])]

/-- JSON value that does not match the JWKS shape (`keys` is a string). -/
def badDoc : Json := .obj [("keys", .str "nope")]

/-- Concrete external JSON parser: maps five fixed input strings to the
sample documents and fails on anything else (in particular on `"garbage"`). -/
def sampleParse : String → Option Json := fun s =>
  if s = "sample" then some sampleDoc
  else if s = "dup" then some dupDoc
  else if s = "ec" then some ecDoc
  else if s = "empty" then some emptyDoc
  else if s = "bad" then some badDoc
  else none

/-- Header carrying kid `auth0_rs`. -/
def sampleHeader : Header := ⟨.RS256, some "auth0_rs"⟩

/-- Codec whose verification succeeds exactly for `sampleKey`'s modulus under
RS256, yielding the payload claims. -/
def sampleCodec : JwtCodec :=
  { decode_header := fun _ => .ok sampleHeader,
    decode := fun _ modulus _ alg =>
      if modulus = "modulusA" ∧ alg = .RS256 then .ok (.str "payload")
      else .error () }

/-- Codec that reports an unknown kid `ghost` and would verify anything. -/
def ghostCodec : JwtCodec :=
  { decode_header := fun _ => .ok ⟨.RS256, some "ghost"⟩,
    decode := fun _ _ _ _ => .ok (.str "payload") }

/-- Codec that reports a header without kid and would verify anything. -/
def noKidCodec : JwtCodec :=
  { decode_header := fun _ => .ok ⟨.RS256, none⟩,
    decode := fun _ _ _ _ => .ok (.str "payload") }

/-- Codec verifying only under RS256. -/
def rs256OnlyCodec : JwtCodec :=
  { decode_header := fun _ => .ok sampleHeader,
    decode := fun _ _ _ alg =>
      if alg = .RS256 then .ok (.str "payload") else .error () }

/-- Codec verifying under every algorithm, agreeing with `rs256OnlyCodec`
on RS256. -/
def anyAlgCodec : JwtCodec :=
  { decode_header := fun _ => .ok sampleHeader,
    decode := fun _ _ _ _ => .ok (.str "payload") }

/-- Key store holding exactly `sampleKey`. -/
def sampleStore : Auth0 := ⟨Auth0.jwks_to_keymap ⟨[sampleKey]⟩⟩


/-! ### Lookup characterization of the key map -/

/-- Evaluating the fold of `jwks_to_keymap` over an arbitrary starting map:
the lookup of `kid` is the last document entry whose `kid` matches, falling
back to the starting map. -/
theorem keymap_foldl_eval (l : List JsonWebKey) (m : KeyMap) (kid : String) :
    (l.foldl (fun key_map key => key_map.insert key.kid key) m) kid =
      match (l.filter fun key => key.kid == kid).getLast? with
      | some key => some key
      | none => m kid := by
  induction l generalizing m with
  | nil => rfl
  | cons k l ih =>
    rw [List.foldl_cons, ih]
    by_cases hk : k.kid = kid
    · subst hk
      have hfc : (k :: l).filter (fun key => key.kid == k.kid) =
          k :: l.filter (fun key => key.kid == k.kid) := by
        simp [List.filter_cons]
      rw [hfc]
      cases hfl : l.filter (fun key => key.kid == k.kid) with
      | nil => simp [KeyMap.insert]
      | cons x xs =>
        rw [List.getLast?_cons_cons]
        cases hgl : (x :: xs).getLast? with
        | none => exact absurd (List.getLast?_eq_none_iff.mp hgl) (by simp)
        | some y => rfl
    · have hfc : (k :: l).filter (fun key => key.kid == kid) =
          l.filter (fun key => key.kid == kid) := by
        simp [List.filter_cons, hk]
      rw [hfc]
      cases hgl : (l.filter fun key => key.kid == kid).getLast? with
      | none =>
        show m.insert k.kid k kid = m kid
        simp only [KeyMap.insert]
        exact if_neg (fun h => hk h.symm)
      | some y => rfl

/-- Lookup in a freshly built key map is the last matching document entry. -/
theorem jwks_to_keymap_eval (keys : Jwks) (kid : String) :
    Auth0.jwks_to_keymap keys kid =
      (keys.keys.filter fun key => key.kid == kid).getLast? := by
  rw [Auth0.jwks_to_keymap, keymap_foldl_eval]
  cases (keys.keys.filter fun key => key.kid == kid).getLast? <;> rfl

/-! ### Claims about the validation pipeline -/

/-- C1: for a KeyStore built from a JWKS containing a key K (resolved by the
store for its `kid`), and a token whose header `kid` equals K's `kid` and
whose signature verifies under K's modulus and exponent with RS256 (i.e. the
external `decode` succeeds with the payload's claims), `validate_token`
returns `Ok` with exactly those claims, passed through unmodified. -/
theorem validate_token_roundtrip (parseJson : String → Option Json)
    (jwks_str : String) (keys : Jwks) (a : Auth0) (codec : JwtCodec)
    (token : String) (h : Header) (key : JsonWebKey) (claims : Claims)
    (hkeys : jwksFromStr parseJson jwks_str = some keys)
    (hbuild : Auth0.new parseJson jwks_str = .ok a)
    (hmem : key ∈ keys.keys)
    (hlook : a.key_map key.kid = some key)
    (hh : codec.decode_header token = .ok h)
    (hkid : h.kid = some key.kid)
    (hsig : codec.decode token key.n key.e Algorithm.RS256 = .ok claims) :
    a.validate_token codec token = .ok claims := by
  simp [Auth0.validate_token, hh, hkid, hlook, hsig]

/-- C2: the signature-verification step of `validate_token` is always invoked
with the pinned algorithm `RS256` and the resolved key's modulus `n` and
exponent `e` (first conjunct), and the result of `validate_token` depends only
on the codec's header decoding and its behavior at `RS256` — so no input
token can select a different verification algorithm (second conjunct). -/
theorem validate_token_pins_rs256 :
    (∀ (codec : JwtCodec) (a : Auth0) (token : String) (h : Header)
        (kid : String) (key : JsonWebKey),
      codec.decode_header token = .ok h → h.kid = some kid →
      a.key_map kid = some key →
      a.validate_token codec token =
        match codec.decode token key.n key.e Algorithm.RS256 with
        | .ok decoded => .ok decoded
        | .error _ => .error (new_error .InvalidToken))
    ∧ (∀ codec1 codec2 : JwtCodec,
      codec1.decode_header = codec2.decode_header →
      (∀ token modulus exponent, codec1.decode token modulus exponent Algorithm.RS256 =
        codec2.decode token modulus exponent Algorithm.RS256) →
      ∀ (a : Auth0) (token : String),
        a.validate_token codec1 token = a.validate_token codec2 token) := by
  constructor
  · intro codec a token h kid key hh hkid hlook
    simp [Auth0.validate_token, hh, hkid, hlook]
  · intro codec1 codec2 hh hdec a token
    cases hdh : codec1.decode_header token with
    | error err =>
      have hdh2 : codec2.decode_header token = .error err := by rw [← hh]; exact hdh
      simp [Auth0.validate_token, hdh, hdh2]
    | ok h =>
      have hdh2 : codec2.decode_header token = .ok h := by rw [← hh]; exact hdh
      cases hkid : h.kid with
      | none => simp [Auth0.validate_token, hdh, hdh2, hkid]
      | some kid =>
        cases hlook : a.key_map kid with
        | none => simp [Auth0.validate_token, hdh, hdh2, hkid, hlook]
        | some key => simp [Auth0.validate_token, hdh, hdh2, hkid, hlook, hdec]

/-- C3: a token whose decoded header carries a `kid` not present in the key
map fails with `NoMatchKey`, regardless of what the signature-verification
primitive would have answered (the codec's `decode` is arbitrary here). -/
theorem validate_token_unknown_kid (codec : JwtCodec) (a : Auth0)
    (token : String) (h : Header) (kid : String)
    (hh : codec.decode_header token = .ok h) (hkid : h.kid = some kid)
    (hmiss : a.key_map kid = none) :
    a.validate_token codec token = .error (new_error .NoMatchKey) := by
  simp [Auth0.validate_token, hh, hkid, hmiss]

/-- C4: a token whose header decodes but carries no `kid` fails with
`TokenMissingKeyId`; no fallback over the stored keys is attempted (the store
and the codec's `decode` are arbitrary). -/
theorem validate_token_missing_kid (codec : JwtCodec) (a : Auth0)
    (token : String) (h : Header)
    (hh : codec.decode_header token = .ok h) (hkid : h.kid = none) :
    a.validate_token codec token = .error (new_error .TokenMissingKeyId) := by
  simp [Auth0.validate_token, hh, hkid]

/-- C5: `validate_token` returns `InvalidToken` exactly when the header fails
to decode, or header decoding and key lookup succeed but the full signature
verification / payload decode step fails; every such failure collapses to the
single kind `InvalidToken`. -/
theorem validate_token_invalid_token_iff (codec : JwtCodec) (a : Auth0)
    (token : String) :
    a.validate_token codec token = .error (new_error .InvalidToken) ↔
      codec.decode_header token = .error () ∨
      ∃ h kid key, codec.decode_header token = .ok h ∧ h.kid = some kid ∧
        a.key_map kid = some key ∧
        codec.decode token key.n key.e Algorithm.RS256 = .error () := by
  constructor
  · intro heq
    cases hh : codec.decode_header token with
    | error err => cases err; exact Or.inl rfl
    | ok h =>
      cases hkid : h.kid with
      | none => simp [Auth0.validate_token, hh, hkid, new_error] at heq
      | some kid =>
        cases hlook : a.key_map kid with
        | none => simp [Auth0.validate_token, hh, hkid, hlook, new_error] at heq
        | some key =>
          cases hdec : codec.decode token key.n key.e Algorithm.RS256 with
          | error err =>
            cases err
            exact Or.inr ⟨h, kid, key, rfl, hkid, hlook, hdec⟩
          | ok claims =>
            simp [Auth0.validate_token, hh, hkid, hlook, hdec] at heq
  · intro hor
    cases hor with
    | inl hh => simp [Auth0.validate_token, hh]
    | inr hex =>
      obtain ⟨h, kid, key, hh, hkid, hlook, hdec⟩ := hex
      simp [Auth0.validate_token, hh, hkid, hlook, hdec]

/-- Lookup in a freshly built key map succeeds exactly for the kids present
in the source document. -/
theorem jwks_to_keymap_isSome_iff (keys : Jwks) (kid : String) :
    (Auth0.jwks_to_keymap keys kid).isSome ↔
      ∃ key, key ∈ keys.keys ∧ key.kid = kid := by
  rw [jwks_to_keymap_eval, List.getLast?_isSome]
  constructor
  · intro hne
    obtain ⟨x, hx⟩ := List.exists_mem_of_ne_nil _ hne
    have hmem := List.mem_filter.mp hx
    exact ⟨x, hmem.1, by simpa using hmem.2⟩
  · rintro ⟨key, hmem, hkid⟩ hnil
    have hin : key ∈ keys.keys.filter (fun k => k.kid == kid) :=
      List.mem_filter.mpr ⟨hmem, by simp [hkid]⟩
    rw [hnil] at hin
    exact absurd hin (List.not_mem_nil key)

/-! ### Claims about KeyStore construction and rotation -/

/-- C6: a JWKS string that is not valid JSON, or whose JSON value does not
deserialize to the expected shape (a `keys` array of entries with the
required fields of the required types), makes `Auth0.new` fail with the
`InvalidJwksStr` kind (the spec's `InvalidJwksDocument`); no `Auth0` value is
produced. -/
theorem new_rejects_malformed_jwks (parseJson : String → Option Json)
    (s : String)
    (hbad : parseJson s = none ∨
      ∃ j, parseJson s = some j ∧ jwksFromJson j = none) :
    Auth0.new parseJson s = .error (new_error .InvalidJwksStr) := by
  cases hbad with
  | inl hparse => simp [Auth0.new, jwksFromStr, hparse]
  | inr hex =>
    obtain ⟨j, hparse, hshape⟩ := hex
    simp [Auth0.new, jwksFromStr, hparse, hshape]

/-- C7: a failed `update_keys` (the JWKS string does not deserialize) returns
the `InvalidJwksStr` kind (the spec's `InvalidJwksDocument`) and leaves the
key map completely unchanged — every lookup afterwards resolves exactly as
before. -/
theorem update_keys_failure_preserves_map (parseJson : String → Option Json)
    (a : Auth0) (s : String)
    (hbad : jwksFromStr parseJson s = none) :
    Auth0.update_keys parseJson a s = (.error (new_error .InvalidJwksStr), a) ∧
    ∀ kid, (Auth0.update_keys parseJson a s).2.key_map kid = a.key_map kid := by
  refine ⟨by simp [Auth0.update_keys, hbad], fun kid => ?_⟩
  simp [Auth0.update_keys, hbad]

/-- C8: a successful `update_keys` wholly replaces the mapping: the new state
is exactly the key map of the new document; a kid is resolvable afterwards
iff some key of the new document carries it, and a kid carried by no key of
the new document (in particular one present only in the old mapping) is no
longer resolvable. -/
theorem update_keys_success_replaces_map (parseJson : String → Option Json)
    (a : Auth0) (s : String) (keys : Jwks)
    (hok : jwksFromStr parseJson s = some keys) :
    Auth0.update_keys parseJson a s = (.ok (), ⟨Auth0.jwks_to_keymap keys⟩) ∧
    (∀ kid, ((Auth0.update_keys parseJson a s).2.key_map kid).isSome ↔
      ∃ key, key ∈ keys.keys ∧ key.kid = kid) ∧
    (∀ kid, (∀ key ∈ keys.keys, key.kid ≠ kid) →
      (Auth0.update_keys parseJson a s).2.key_map kid = none) := by
  have hrun : Auth0.update_keys parseJson a s =
      (.ok (), ⟨Auth0.jwks_to_keymap keys⟩) := by
    simp [Auth0.update_keys, hok]
  refine ⟨hrun, fun kid => ?_, fun kid hnone => ?_⟩
  · rw [hrun]
    exact jwks_to_keymap_isSome_iff keys kid
  · rw [hrun]
    have hiff := jwks_to_keymap_isSome_iff keys kid
    cases hval : Auth0.jwks_to_keymap keys kid with
    | none => exact hval
    | some key =>
      obtain ⟨key2, hmem, hkid⟩ := hiff.mp (by rw [hval]; rfl)
      exact absurd hkid (hnone key2 hmem)

/-- C9: the key map built from a document maps each kid to the entry
appearing latest in document order (the last element of the filtered key
list); duplicate kids are silently overwritten and are never an error —
`Auth0.new` and `Auth0.update_keys` still succeed on any document that
deserializes. -/
theorem duplicate_kid_last_wins :
    (∀ (keys : Jwks) (kid : String),
      Auth0.jwks_to_keymap keys kid =
        (keys.keys.filter fun key => key.kid == kid).getLast?)
    ∧ (∀ (parseJson : String → Option Json) (s : String) (keys : Jwks),
      jwksFromStr parseJson s = some keys →
      Auth0.new parseJson s = .ok ⟨Auth0.jwks_to_keymap keys⟩ ∧
      ∀ a : Auth0,
        Auth0.update_keys parseJson a s = (.ok (), ⟨Auth0.jwks_to_keymap keys⟩)) := by
  refine ⟨jwks_to_keymap_eval, fun parseJson s keys hok => ⟨?_, fun a => ?_⟩⟩
  · simp [Auth0.new, hok]
  · simp [Auth0.update_keys, hok]

/-- C10: `Auth0.new` performs no semantic validation of key field values —
every document that deserializes to the JWKS shape yields `Ok`, whatever the
`kty`, `alg` and `use` values and even with an empty `keys` array; the empty
array yields an empty map, on which every `validate_token` call fails with
`InvalidToken`, `TokenMissingKeyId` or `NoMatchKey` before the
signature-verification primitive can influence the result. -/
theorem new_no_semantic_validation :
    (∀ (parseJson : String → Option Json) (s : String) (keys : Jwks),
      jwksFromStr parseJson s = some keys →
      Auth0.new parseJson s = .ok ⟨Auth0.jwks_to_keymap keys⟩)
    ∧ (∀ kid, Auth0.jwks_to_keymap ⟨[]⟩ kid = none)
    ∧ (∀ (codec : JwtCodec) (token : String),
      ∃ kind, (Auth0.mk (Auth0.jwks_to_keymap ⟨[]⟩)).validate_token codec token =
          .error (new_error kind) ∧
        (kind = .InvalidToken ∨ kind = .TokenMissingKeyId ∨ kind = .NoMatchKey))
    ∧ (∀ (codec1 codec2 : JwtCodec) (token : String),
      codec1.decode_header = codec2.decode_header →
      (Auth0.mk (Auth0.jwks_to_keymap ⟨[]⟩)).validate_token codec1 token =
        (Auth0.mk (Auth0.jwks_to_keymap ⟨[]⟩)).validate_token codec2 token) := by
  refine ⟨fun parseJson s keys hok => by simp [Auth0.new, hok],
    fun kid => rfl, fun codec token => ?_, fun codec1 codec2 token hh => ?_⟩
  · cases hdh : codec.decode_header token with
    | error err =>
      exact ⟨.InvalidToken, by simp [Auth0.validate_token, hdh], Or.inl rfl⟩
    | ok h =>
      cases hkid : h.kid with
      | none =>
        exact ⟨.TokenMissingKeyId, by simp [Auth0.validate_token, hdh, hkid],
          Or.inr (Or.inl rfl)⟩
      | some kid =>
        refine ⟨.NoMatchKey, ?_, Or.inr (Or.inr rfl)⟩
        have hempty : Auth0.jwks_to_keymap ⟨[]⟩ kid = none := rfl
        simp [Auth0.validate_token, hdh, hkid, hempty]
  · cases hdh : codec1.decode_header token with
    | error err =>
      have hdh2 : codec2.decode_header token = .error err := by rw [← hh]; exact hdh
      simp [Auth0.validate_token, hdh, hdh2]
    | ok h =>
      have hdh2 : codec2.decode_header token = .ok h := by rw [← hh]; exact hdh
      cases hkid : h.kid with
      | none => simp [Auth0.validate_token, hdh, hdh2, hkid]
      | some kid =>
        have hempty : Auth0.jwks_to_keymap ⟨[]⟩ kid = none := rfl
        simp [Auth0.validate_token, hdh, hdh2, hkid, hempty]

/-! ### Witnesses: the theorems evaluated on the concrete sample data -/

/-- Witness for C1: the store holding `sampleKey` validates a token whose
header names `auth0_rs` and whose signature verifies under `sampleKey`,
returning the payload claims. -/
theorem validate_token_roundtrip_witness :
    sampleStore.validate_token sampleCodec "token" = .ok (.str "payload") :=
  validate_token_roundtrip sampleParse "sample" ⟨[sampleKey]⟩ sampleStore
    sampleCodec "token" sampleHeader sampleKey (.str "payload")
    rfl rfl (by simp) rfl rfl rfl rfl

/-- Witness for C2: on the concrete store, validation reduces to the codec's
RS256 verdict at `sampleKey`'s components, and a codec verifying only under
RS256 is indistinguishable from one verifying under every algorithm. -/
theorem validate_token_pins_rs256_witness :
    sampleStore.validate_token rs256OnlyCodec "token" = .ok (.str "payload") ∧
    sampleStore.validate_token rs256OnlyCodec "token" =
      sampleStore.validate_token anyAlgCodec "token" :=
  ⟨(validate_token_pins_rs256.1 rs256OnlyCodec sampleStore "token"
      sampleHeader "auth0_rs" sampleKey rfl rfl rfl).trans rfl,
   validate_token_pins_rs256.2 rs256OnlyCodec anyAlgCodec rfl
      (fun _ _ _ => rfl) sampleStore "token"⟩

/-- Witness for C3: a token naming the unknown kid `ghost` is rejected with
`NoMatchKey` even though `ghostCodec` would have verified any signature. -/
theorem validate_token_unknown_kid_witness :
    sampleStore.validate_token ghostCodec "token" =
      .error (new_error .NoMatchKey) :=
  validate_token_unknown_kid ghostCodec sampleStore "token"
    ⟨.RS256, some "ghost"⟩ "ghost" rfl rfl rfl

/-- Witness for C4: a token without kid is rejected with `TokenMissingKeyId`
even though `noKidCodec` would have verified any signature. -/
theorem validate_token_missing_kid_witness :
    sampleStore.validate_token noKidCodec "token" =
      .error (new_error .TokenMissingKeyId) :=
  validate_token_missing_kid noKidCodec sampleStore "token" ⟨.RS256, none⟩
    rfl rfl

/-- Witness for C6: unparseable text (`"garbage"`) and a JSON value of the
wrong shape (`"bad"`, whose `keys` is a string) both make `Auth0.new` fail
with `InvalidJwksStr`. -/
theorem new_rejects_malformed_jwks_witness :
    Auth0.new sampleParse "garbage" = .error (new_error .InvalidJwksStr) ∧
    Auth0.new sampleParse "bad" = .error (new_error .InvalidJwksStr) :=
  ⟨new_rejects_malformed_jwks sampleParse "garbage" (Or.inl rfl),
   new_rejects_malformed_jwks sampleParse "bad" (Or.inr ⟨badDoc, rfl, rfl⟩)⟩

/-- Witness for C7: a failed rotation of the concrete store returns
`InvalidJwksStr` and the lookup of `auth0_rs` is unchanged. -/
theorem update_keys_failure_preserves_map_witness :
    Auth0.update_keys sampleParse sampleStore "garbage" =
      (.error (new_error .InvalidJwksStr), sampleStore) ∧
    (Auth0.update_keys sampleParse sampleStore "garbage").2.key_map "auth0_rs" =
      sampleStore.key_map "auth0_rs" :=
  ⟨(update_keys_failure_preserves_map sampleParse sampleStore "garbage" rfl).1,
   (update_keys_failure_preserves_map sampleParse sampleStore "garbage" rfl).2
      "auth0_rs"⟩

/-- Witness for C8: rotating the concrete store to the `ec` document replaces
the mapping — `ec_key` becomes resolvable and the old `auth0_rs` is not. -/
theorem update_keys_success_replaces_map_witness :
    Auth0.update_keys sampleParse sampleStore "ec" =
      (.ok (), ⟨Auth0.jwks_to_keymap ⟨[ecKey]⟩⟩) ∧
    ((Auth0.update_keys sampleParse sampleStore "ec").2.key_map "ec_key").isSome ∧
    (Auth0.update_keys sampleParse sampleStore "ec").2.key_map "auth0_rs" =
      none := by
  have hthm := update_keys_success_replaces_map sampleParse sampleStore "ec"
    ⟨[ecKey]⟩ (by decide)
  exact ⟨hthm.1, (hthm.2.1 "ec_key").mpr ⟨ecKey, by simp, rfl⟩,
    hthm.2.2 "auth0_rs" (by decide)⟩

/-- Witness for C9: the document listing `sampleKey` then `dupKey` under the
same kid yields a store resolving `auth0_rs` to `dupKey`, and `Auth0.new`
still succeeds on it. -/
theorem duplicate_kid_last_wins_witness :
    Auth0.jwks_to_keymap ⟨[sampleKey, dupKey]⟩ "auth0_rs" = some dupKey ∧
    Auth0.new sampleParse "dup" =
      .ok ⟨Auth0.jwks_to_keymap ⟨[sampleKey, dupKey]⟩⟩ :=
  ⟨(duplicate_kid_last_wins.1 ⟨[sampleKey, dupKey]⟩ "auth0_rs").trans
      (by decide),
   (duplicate_kid_last_wins.2 sampleParse "dup" ⟨[sampleKey, dupKey]⟩
      (by decide)).1⟩

/-- Witness for C10: `Auth0.new` accepts the non-RSA key document and the
empty document; the empty store resolves nothing and rejects a token before
any signature verification. -/
theorem new_no_semantic_validation_witness :
    Auth0.new sampleParse "ec" = .ok ⟨Auth0.jwks_to_keymap ⟨[ecKey]⟩⟩ ∧
    Auth0.new sampleParse "empty" = .ok ⟨Auth0.jwks_to_keymap ⟨[]⟩⟩ ∧
    Auth0.jwks_to_keymap ⟨[]⟩ "auth0_rs" = none ∧
    ∃ kind,
      (Auth0.mk (Auth0.jwks_to_keymap ⟨[]⟩)).validate_token sampleCodec
          "token" = .error (new_error kind) ∧
        (kind = .InvalidToken ∨ kind = .TokenMissingKeyId ∨
          kind = .NoMatchKey) :=
  ⟨new_no_semantic_validation.1 sampleParse "ec" ⟨[ecKey]⟩ (by decide),
   new_no_semantic_validation.1 sampleParse "empty" ⟨[]⟩ (by decide),
   new_no_semantic_validation.2.1 "auth0_rs",
   new_no_semantic_validation.2.2.1 sampleCodec "token"⟩

end Auth0Rs
